import Mathlib

/-!
# Document Intelligence System — verification of the spec against the code

Shallow embedding of the Document-Intelligence-System repository.

The repository ships three variants of the React frontend (`frontend/App.js`
and the two unnamed frontend files) plus documentation.  The frontend
functions `processDocument` and `handleFileSelect` are embedded directly
from the source.  The backend modules named by the README
(`document_processor.py`, `memory_manager.py`, `llm_handler.py`, `app.py`)
are not part of the shipped sources, so the pipeline, provider gateway,
memory store and query engine are modelled from the spec's words; each such
definition is marked `Modelled from the spec:`.

Text is represented as `List Char`.
-/

namespace DocIntel

/-- Whitespace characters stripped by JavaScript `String.prototype.trim`
(ASCII subset actually occurring in the inputs this development evaluates). -/
def isJsWhitespace (c : Char) : Bool :=
  c = ' ' || c = '\t' || c = '\n' || c = '\r' || c = '\x0b' || c = '\x0c'

/-- JavaScript `String.prototype.trim`: strip leading and trailing whitespace. -/
def jsTrim (s : List Char) : List Char :=
  ((s.dropWhile isJsWhitespace).reverse.dropWhile isJsWhitespace).reverse

/-- JavaScript `String.prototype.toLowerCase`, per-character simple case mapping. -/
def jsToLowerCase (s : List Char) : List Char :=
  s.map Char.toLower

/-- JavaScript `String.prototype.lastIndexOf` for a single character:
the greatest index holding `c`, or `-1` when absent. -/
def jsLastIndexOf (s : List Char) (c : Char) : Int :=
  match s.reverse.findIdx? (fun x => x = c) with
  | none => -1
  | some i => (s.length : Int) - 1 - (i : Int)

/-- JavaScript `String.prototype.substring(i)` with a single argument:
negative start indices clamp to `0` (`Int.toNat` of a negative is `0`). -/
def jsSubstringFrom (s : List Char) (i : Int) : List Char :=
  s.drop i.toNat

/- ### Frontend: `processDocument` (frontend/App.js lines 26–48)

`processDocument` alerts and returns when `!text.trim()`, otherwise it
issues `POST /process-document` with the text and selected provider. -/

/-- The externally visible action taken by the frontend handler
`processDocument`: either an alert with no HTTP request, or the POST to
`/process-document` carrying the raw text and the provider name. -/
inductive FrontendAction where
  | alertEnterText
  | postProcessDocument (text : List Char) (provider : String)
deriving DecidableEq, Repr

/-- `processDocument` from `frontend/App.js`: guard on `!text.trim()`, else
POST `{text, use_memory: true, provider}` to `/process-document`. -/
def processDocument (text : List Char) (provider : String) : FrontendAction :=
  if jsTrim text = [] then
    .alertEnterText
  else
    .postProcessDocument text provider

/- ### Frontend: `handleFileSelect` (unnamed frontend files, lines 28–43 / 42–57) -/

/-- A selected browser file: its `name` and its MIME `type`. -/
structure JsFile where
  name : List Char
  type : String
deriving DecidableEq, Repr

/-- `validTypes` from `handleFileSelect`. -/
def validTypes : List String :=
  ["application/pdf",
   "application/vnd.openxmlformats-officedocument.wordprocessingml.document",
   "text/plain"]

/-- `validExtensions` from `handleFileSelect`. -/
def validExtensions : List (List Char) :=
  [".pdf".toList, ".docx".toList, ".txt".toList]

/-- `file.name.toLowerCase().substring(file.name.lastIndexOf('.'))`:
the index of the last dot is taken on the original name, the substring on
the lowercased name. -/
def fileExtension (f : JsFile) : List Char :=
  jsSubstringFrom (jsToLowerCase f.name) (jsLastIndexOf f.name '.')

/-- Outcome of `handleFileSelect`: no file chosen (no-op), rejection
(alert, no state change, no upload request), or acceptance
(`setUploadedFile(file); setText('')`). -/
inductive FileSelectResult where
  | noFile
  | rejected
  | accepted (f : JsFile)
deriving DecidableEq, Repr

/-- `handleFileSelect` from the unnamed frontend files: reject when the MIME
type is not in `validTypes` AND the extension is not in `validExtensions`. -/
def handleFileSelect (chosen : Option JsFile) : FileSelectResult :=
  match chosen with
  | none => .noFile
  | some f =>
    if !(validTypes.contains f.type) && !(validExtensions.contains (fileExtension f)) then
      .rejected
    else
      .accepted f

/- ### Provider Registry & Inference Gateway (spec §4.1) -/

/-- Modelled from the spec: `ProviderDescriptor` (§3) — name, `configured`
flag, model identifier.  The backend `llm_handler.py` is not in the shipped
sources. -/
structure ProviderDescriptor where
  name : String
  configured : Bool
  model : String
deriving DecidableEq, Repr

/-- Failure of a single gateway call (spec §7 taxonomy, provider kinds). -/
inductive ProviderFailure where
  | providerUnavailable
  | providerError (cause : List Char)
deriving DecidableEq, Repr

/-- Modelled from the spec: the Inference Gateway (§4.1) with its registry and
the external backend abstracted as an oracle mapping the index of a network
interaction to its outcome (normalized text, or a cause string on failure).
The backend `llm_handler.py` is not in the shipped sources. -/
structure Gateway where
  registry : List ProviderDescriptor
  oracle : Nat → Except (List Char) (List Char)

/-- Registry lookup by provider name (`listProviders` domain, §4.1). -/
def lookupProvider (g : Gateway) (providerName : String) : Option ProviderDescriptor :=
  g.registry.find? (fun d => d.name = providerName)

/-- Whether the named provider exists and is `configured`. -/
def isConfigured (g : Gateway) (providerName : String) : Bool :=
  match lookupProvider g providerName with
  | some d => d.configured
  | none => false

/-- Modelled from the spec: `invoke` (§4.1).  Takes the count of network
interactions already attempted and returns the call outcome together with the
updated count.  The `configured` check is local: on an unconfigured or unknown
provider the count is returned unchanged — no network interaction happens.
The backend `llm_handler.py` is not in the shipped sources. -/
def invoke (g : Gateway) (providerName : String) (calls : Nat) :
    Except ProviderFailure (List Char) × Nat :=
  if isConfigured g providerName then
    match g.oracle calls with
    | .ok t => (.ok t, calls + 1)
    | .error c => (.error (.providerError c), calls + 1)
  else
    (.error .providerUnavailable, calls)

/- ### Pipeline Orchestrator (spec §4.2) -/

/-- A generated question: `{type, question}` (spec §3, `PipelineResult`). -/
structure Question where
  qtype : String
  question : List Char
deriving DecidableEq, Repr

/-- `PipelineResult` (spec §3): exactly one summary, ordered facts, ordered
questions. -/
structure PipelineResult where
  summary : List Char
  facts : List (List Char)
  questions : List Question
deriving DecidableEq, Repr

/-- The three pipeline stages (spec §4.2 state machine). -/
inductive Stage where
  | summarizing
  | extractingFacts
  | generatingQuestions
deriving DecidableEq, Repr

/-- Cause attached to a `Failed(stage)` terminal state. -/
inductive FailCause where
  | unavailable
  | backend (msg : List Char)
  | emptySummary
deriving DecidableEq, Repr

/-- Pipeline errors: `InvalidInput` on blank text, else `Failed(stage)` with a
cause (spec §4.2, §7). -/
inductive PipelineError where
  | invalidInput
  | failed (stage : Stage) (cause : FailCause)
deriving DecidableEq, Repr

/-- Map a gateway failure to the cause surfaced by `Failed(stage)`. -/
def causeOf : ProviderFailure → FailCause
  | .providerUnavailable => .unavailable
  | .providerError m => .backend m

/-- Split a character list at newline delimiters. -/
def splitLinesAux (acc : List Char) : List Char → List (List Char)
  | [] => [acc.reverse]
  | c :: rest =>
    if c = '\n' then acc.reverse :: splitLinesAux [] rest
    else splitLinesAux (c :: acc) rest

/-- Split raw provider output into lines. -/
def splitLines (s : List Char) : List (List Char) :=
  splitLinesAux [] s

/-- Leading enumerated-list markers (`-`, `*`, digits, `.`, `)`) stripped from
a fact line. -/
def isListMarker (c : Char) : Bool :=
  c = '-' || c = '*' || c = '.' || c = ')' || c.isDigit

/-- Modelled from the spec: lenient fact parsing (§4.2) — split the raw output
on line breaks, strip enumerated-list markers and surrounding whitespace, and
drop blank lines; zero parseable items yields `[]`, never an error.  The
backend `document_processor.py` is not in the shipped sources. -/
def parseFacts (raw : List Char) : List (List Char) :=
  ((splitLines raw).map (fun l => jsTrim ((jsTrim l).dropWhile isListMarker))).filter
    (fun l => l ≠ [])

/-- The fixed question-type vocabulary (spec §4.2). -/
def questionTypes : List String := ["factual", "analytical", "open-ended"]

/-- The default question type assigned when a line fails to parse a type
(spec §4.2: such entries are kept, not dropped). -/
def defaultQuestionType : String := "factual"

/-- Decode one output line into a typed question: a recognized `type:` prefix
tags the question, anything else gets the default type. -/
def parseQuestionLine (l : List Char) : Question :=
  match questionTypes.find? (fun t => l.take (t.length + 1) = t.toList ++ [':']) with
  | some t => { qtype := t, question := jsTrim (l.drop (t.length + 1)) }
  | none => { qtype := defaultQuestionType, question := l }

/-- Modelled from the spec: lenient question parsing (§4.2) — one question per
non-blank line; unparseable types degrade to the default type.  The backend
`document_processor.py` is not in the shipped sources. -/
def parseQuestions (raw : List Char) : List Question :=
  (((splitLines raw).map jsTrim).filter (fun l => l ≠ [])).map parseQuestionLine

/-- Modelled from the spec: `process` (§4.2, §6) — blank text fails with
`InvalidInput` before any provider call; otherwise the three stages run
strictly sequentially through `invoke`, any stage failure aborts with
`Failed(stage, cause)` and no partial result; fact/question parsing is
lenient.  Returns the outcome with the total number of network interactions
attempted.  The backend `document_processor.py` is not in the shipped
sources. -/
def process (g : Gateway) (text : List Char) (providerName : String) :
    Except PipelineError PipelineResult × Nat :=
  if jsTrim text = [] then
    (.error .invalidInput, 0)
  else
    match invoke g providerName 0 with
    | (.error f, n) => (.error (.failed .summarizing (causeOf f)), n)
    | (.ok summary, n1) =>
      if jsTrim summary = [] then
        (.error (.failed .summarizing .emptySummary), n1)
      else
        match invoke g providerName n1 with
        | (.error f, n) => (.error (.failed .extractingFacts (causeOf f)), n)
        | (.ok factsRaw, n2) =>
          match invoke g providerName n2 with
          | (.error f, n) => (.error (.failed .generatingQuestions (causeOf f)), n)
          | (.ok questionsRaw, n3) =>
            (.ok { summary := summary
                   facts := parseFacts factsRaw
                   questions := parseQuestions questionsRaw }, n3)

/- ### Memory Store (spec §4.4) -/

/-- Modelled from the spec: `MemoryChunk` (§3) — id, owning document, text
span, embedding vector, preview, ingestion timestamp, optional summary.  The
backend `memory_manager.py` is not in the shipped sources. -/
structure MemoryChunk where
  chunkId : Nat
  docId : Nat
  text : List Char
  embedding : List Int
  preview : List Char
  timestamp : Nat
  summary : Option (List Char)
deriving DecidableEq, Repr

/-- Modelled from the spec: the Memory Store's state — the chunk collection
plus the collection identifier surfaced by `stats` (§3, §4.4).  The backend
`memory_manager.py` is not in the shipped sources. -/
structure MemoryStore where
  chunks : List MemoryChunk
  collectionName : String
deriving DecidableEq, Repr

/-- Inner-product similarity between a query vector and a chunk vector (the
single similarity metric of §3's invariants, applied consistently). -/
def simScore (q v : List Int) : Int :=
  (q.zipWith (· * ·) v).sum

/-- Score one stored chunk against an embedded query. -/
def scoreChunk (qv : List Int) (c : MemoryChunk) : Int :=
  simScore qv c.embedding

/-- The ranking order on scored chunks (§4.4): higher score first; on equal
scores, the more recent ingestion timestamp first. -/
def rankRel (a b : MemoryChunk × Int) : Prop :=
  b.2 < a.2 ∨ (a.2 = b.2 ∧ b.1.timestamp ≤ a.1.timestamp)

instance : DecidableRel rankRel := fun a b => by
  unfold rankRel
  infer_instance

instance : IsTotal (MemoryChunk × Int) rankRel := by
  constructor
  intro a b
  unfold rankRel
  rcases lt_trichotomy a.2 b.2 with h | h | h
  · exact Or.inr (Or.inl h)
  · rcases Nat.le_total a.1.timestamp b.1.timestamp with ht | ht
    · exact Or.inr (Or.inr ⟨h.symm, ht⟩)
    · exact Or.inl (Or.inr ⟨h, ht⟩)
  · exact Or.inl (Or.inl h)

instance : IsTrans (MemoryChunk × Int) rankRel := by
  constructor
  intro a b c hab hbc
  unfold rankRel at *
  rcases hab with h1 | ⟨h1, t1⟩ <;> rcases hbc with h2 | ⟨h2, t2⟩
  · exact Or.inl (h2.trans h1)
  · exact Or.inl (h2 ▸ h1)
  · exact Or.inl (h1 ▸ h2)
  · exact Or.inr ⟨h1.trans h2, t2.trans t1⟩

/-- The default `topK` (§4.4: a small fixed constant, e.g. 5). -/
def DEFAULT_TOP_K : Nat := 5

/-- Modelled from the spec: `query` (§4.4) — embed the query text, score every
stored vector, rank by descending score with recency tie-break, and return at
most `topK` results, clamped to the stored chunk count.  On an empty store
this is the empty sequence, not an error.  The backend `memory_manager.py` is
not in the shipped sources. -/
def query (s : MemoryStore) (embedFn : List Char → List Int)
    (queryText : List Char) (topK : Nat) : List (MemoryChunk × Int) :=
  let qv := embedFn queryText
  let scored := s.chunks.map (fun c => (c, scoreChunk qv c))
  (List.insertionSort rankRel scored).take (min topK s.chunks.length)

/-- Modelled from the spec: a `query` run over the shared store, returning the
ranked output together with the store state it leaves behind — `query` reads
but never modifies the collection (§4.4, §8 idempotence).  The backend
`memory_manager.py` is not in the shipped sources. -/
def queryRun (s : MemoryStore) (embedFn : List Char → List Int)
    (queryText : List Char) (topK : Nat) :
    List (MemoryChunk × Int) × MemoryStore :=
  (query s embedFn queryText topK, s)

/-- `MemoryStats` (spec §3): total chunk count, collection identifier, and a
bounded sample of the most recent chunks. -/
structure MemoryStats where
  totalChunks : Nat
  collectionName : String
  samples : List (List Char × Nat)
deriving DecidableEq, Repr

/-- Sample size surfaced by `stats` (§4.4: most recent N previews). -/
def STATS_SAMPLE_SIZE : Nat := 3

/-- Modelled from the spec: `stats` (§4.4) — derived on demand from the store
state: total count plus a bounded sample of the most recent chunk previews
with timestamps.  The backend `memory_manager.py` is not in the shipped
sources. -/
def stats (s : MemoryStore) : MemoryStats :=
  { totalChunks := s.chunks.length
    collectionName := s.collectionName
    samples := ((s.chunks.map (fun c => (c.preview, c.timestamp))).reverse).take
      STATS_SAMPLE_SIZE }

/-- Modelled from the spec: `clear` (§4.4) — removes all chunks, keeping the
collection identifier.  The backend `memory_manager.py` is not in the shipped
sources. -/
def clear (s : MemoryStore) : MemoryStore :=
  { chunks := [], collectionName := s.collectionName }

/- ### Query Engine (spec §4.5) -/

/-- `QueryResult` (spec §3): answer plus ranked sources with raw similarity
scores. -/
structure QueryResult where
  answerText : List Char
  sources : List (MemoryChunk × Int)
deriving DecidableEq, Repr

/-- Modelled from the spec: `answer` (§4.5) — retrieve `topK` chunks via
`query`, then invoke synthesis through the gateway (even when retrieval is
empty); an unconfigured provider fails locally, before any network
interaction.  Returns the outcome with the number of network interactions
attempted.  The backend is not in the shipped sources. -/
def answer (g : Gateway) (s : MemoryStore) (embedFn : List Char → List Int)
    (questionText : List Char) (providerName : String) :
    Except ProviderFailure QueryResult × Nat :=
  let retrieved := query s embedFn questionText DEFAULT_TOP_K
  match invoke g providerName 0 with
  | (.error f, n) => (.error f, n)
  | (.ok t, n) => (.ok { answerText := t, sources := retrieved }, n)

/- ### Concrete fixtures used by witnesses -/

/-- A two-sentence sample document (spec §8 concrete scenario). -/
def sampleText : List Char := "Cats are mammals. Cats purr.".toList

/-- A gateway with one configured and one unconfigured provider, and a
well-behaved backend oracle. -/
def gTest : Gateway :=
  { registry := [{ name := "groq", configured := true, model := "llama-3.1-8b-instant" },
                 { name := "openai", configured := false, model := "gpt-3.5-turbo" }]
    oracle := fun n =>
      if n = 0 then .ok "A short summary of the document.".toList
      else if n = 1 then .ok "1. Cats are mammals\n2. Cats purr".toList
      else .ok "factual: What sound do cats make?".toList }

/-- A gateway whose fact-extraction output contains no parseable facts. -/
def gZeroFacts : Gateway :=
  { registry := [{ name := "groq", configured := true, model := "llama-3.1-8b-instant" }]
    oracle := fun n =>
      if n = 0 then .ok "A short summary.".toList
      else if n = 1 then .ok "\n  \n".toList
      else .ok "analytical: Why do cats purr?".toList }

/- ### Theorems -/

/-- C10: `handleFileSelect` rejects a chosen file (alert, no state change, no
upload request) if and only if its MIME type is outside `validTypes` AND the
lowercased substring of its name from the last dot is outside
`validExtensions`; consequently a file whose extension matches is accepted
regardless of its MIME type, and the extension comparison is case-insensitive
because `fileExtension` lowercases the name first. -/
theorem handleFileSelect_reject_iff (f : JsFile) :
    (handleFileSelect (some f) = .rejected ↔
      f.type ∉ validTypes ∧ fileExtension f ∉ validExtensions) ∧
    (fileExtension f ∈ validExtensions → handleFileSelect (some f) = .accepted f) := by
  unfold handleFileSelect
  by_cases h1 : f.type ∈ validTypes <;>
    by_cases h2 : fileExtension f ∈ validExtensions <;>
      simp [h1, h2]

/-- C2: on empty or whitespace-only input the pipeline fails with
`InvalidInput` after zero provider network interactions, and the frontend
`processDocument` alerts without issuing any HTTP request. -/
theorem blank_input_no_provider_call (g : Gateway) (text : List Char) (p : String)
    (hws : ∀ c ∈ text, isJsWhitespace c = true) :
    process g text p = (.error .invalidInput, 0) ∧
    processDocument text p = .alertEnterText := by
  have ht : jsTrim text = [] := by
    unfold jsTrim
    rw [List.dropWhile_eq_nil_iff.mpr hws]
    rfl
  constructor
  · simp [process, ht]
  · simp [processDocument, ht]

/-- Witness for C2 at a concrete whitespace-only input. -/
theorem blank_input_no_provider_call_witness :
    (∀ c ∈ " \t\n ".toList, isJsWhitespace c = true) ∧
    (process gTest " \t\n ".toList "groq" = (.error .invalidInput, 0) ∧
     processDocument " \t\n ".toList "groq" = .alertEnterText) :=
  ⟨by decide, blank_input_no_provider_call gTest " \t\n ".toList "groq" (by decide)⟩

/-- C6: `query` against an empty store returns the empty ranked sequence, not
an error. -/
theorem query_empty_store (name : String) (embedFn : List Char → List Int)
    (queryText : List Char) (topK : Nat) :
    query { chunks := [], collectionName := name } embedFn queryText topK = [] := by
  simp [query]

/-- C7: after `clear`, `stats` reports zero total chunks and an empty sample,
regardless of the prior store state. -/
theorem clear_then_stats_empty (s : MemoryStore) :
    stats (clear s) =
      { totalChunks := 0, collectionName := s.collectionName, samples := [] } := by
  simp [stats, clear]

/-- C8: `query` is deterministic in the store state and its inputs — it leaves
the store unmodified, and a repeated identical run against the resulting state
returns identical ranked output (same chunks, same order, same scores). -/
theorem query_deterministic (s : MemoryStore) (embedFn : List Char → List Int)
    (queryText : List Char) (topK : Nat) :
    (queryRun s embedFn queryText topK).2 = s ∧
    queryRun (queryRun s embedFn queryText topK).2 embedFn queryText topK =
      queryRun s embedFn queryText topK :=
  ⟨rfl, rfl⟩

/-- Every stored chunk paired with its score against the embedded query — the
full scored population that `query` selects from. -/
def scoredChunks (s : MemoryStore) (embedFn : List Char → List Int)
    (queryText : List Char) : List (MemoryChunk × Int) :=
  s.chunks.map (fun c => (c, scoreChunk (embedFn queryText) c))

/-- C3: `query` returns the `topK` highest-scoring chunks: the result is
sorted in descending score order with ties broken by most-recent ingestion
timestamp first (the `rankRel` order), its length is `topK` clamped to the
stored chunk count (so it never exceeds it), and there is a remainder list
such that result and remainder together are a permutation of all scored
stored chunks while every returned entry rank-dominates every omitted one —
so the returned chunks really are the highest-scoring among the store. -/
theorem query_ranked_and_clamped (s : MemoryStore) (embedFn : List Char → List Int)
    (queryText : List Char) (topK : Nat) :
    ∃ rest,
      List.Sorted rankRel (query s embedFn queryText topK) ∧
      (query s embedFn queryText topK).length = min topK s.chunks.length ∧
      List.Perm (query s embedFn queryText topK ++ rest)
        (scoredChunks s embedFn queryText) ∧
      ∀ a ∈ query s embedFn queryText topK, ∀ b ∈ rest, rankRel a b := by
  have hsorted : List.Sorted rankRel
      (List.insertionSort rankRel (scoredChunks s embedFn queryText)) :=
    List.sorted_insertionSort rankRel _
  have hq : query s embedFn queryText topK =
      (List.insertionSort rankRel (scoredChunks s embedFn queryText)).take
        (min topK s.chunks.length) := rfl
  rw [hq]
  refine ⟨(List.insertionSort rankRel (scoredChunks s embedFn queryText)).drop
      (min topK s.chunks.length), ?_, ?_, ?_, ?_⟩
  · exact List.Pairwise.sublist (List.take_sublist _ _) hsorted
  · rw [List.length_take, List.length_insertionSort]
    simp only [scoredChunks, List.length_map]
    omega
  · rw [List.take_append_drop]
    exact List.perm_insertionSort rankRel _
  · rw [← List.take_append_drop (min topK s.chunks.length)
      (List.insertionSort rankRel (scoredChunks s embedFn queryText))] at hsorted
    exact (List.pairwise_append.mp hsorted).2.2

/-- C5: an unconfigured (or unknown) provider makes `invoke` fail with
`ProviderUnavailable` locally — the network-interaction count is unchanged —
and hence `process` (on non-blank text) and `answer` fail before any network
interaction. -/
theorem unconfigured_provider_fails_locally (g : Gateway) (p : String)
    (h : isConfigured g p = false) :
    (∀ calls, invoke g p calls = (.error .providerUnavailable, calls)) ∧
    (∀ text, jsTrim text ≠ [] →
      process g text p = (.error (.failed .summarizing .unavailable), 0)) ∧
    (∀ s embedFn q, answer g s embedFn q p = (.error .providerUnavailable, 0)) := by
  have hinv : ∀ calls, invoke g p calls = (.error .providerUnavailable, calls) := by
    intro calls
    simp [invoke, h]
  refine ⟨hinv, ?_, ?_⟩
  · intro text ht
    simp [process, ht, hinv 0, causeOf]
  · intro s embedFn q
    simp [answer, hinv 0]

/-- Witness for C5 at the concrete unconfigured provider of `gTest`. -/
theorem unconfigured_provider_fails_locally_witness :
    isConfigured gTest "openai" = false ∧
    invoke gTest "openai" 7 = (.error .providerUnavailable, 7) ∧
    process gTest sampleText "openai" = (.error (.failed .summarizing .unavailable), 0) :=
  ⟨by decide,
   (unconfigured_provider_fails_locally gTest "openai" (by decide)).1 7,
   (unconfigured_provider_fails_locally gTest "openai" (by decide)).2.1
     sampleText (by decide)⟩

/-- C1: on non-blank text and a configured provider, `process` either returns
a full `PipelineResult` — one summary (non-blank), a facts list and a
questions list, which as Lean lists may be empty but can never be null — or
fails naming the failing stage and its cause; `InvalidInput` and partial
results are impossible here. -/
theorem process_all_or_nothing (g : Gateway) (text : List Char) (p : String)
    (ht : jsTrim text ≠ []) (_hp : isConfigured g p = true) :
    (∃ r, (process g text p).1 = .ok r ∧ jsTrim r.summary ≠ []) ∨
    (∃ stage cause, (process g text p).1 = .error (.failed stage cause)) := by
  unfold process
  rw [if_neg ht]
  rcases h0 : invoke g p 0 with ⟨res0, n1⟩
  cases res0 with
  | error f => exact Or.inr ⟨.summarizing, causeOf f, by simp [h0]⟩
  | ok summary =>
    by_cases hs : jsTrim summary = []
    · exact Or.inr ⟨.summarizing, .emptySummary, by simp [h0, hs]⟩
    · rcases h1 : invoke g p n1 with ⟨res1, n2⟩
      cases res1 with
      | error f => exact Or.inr ⟨.extractingFacts, causeOf f, by simp [h0, hs, h1]⟩
      | ok factsRaw =>
        rcases h2 : invoke g p n2 with ⟨res2, n3⟩
        cases res2 with
        | error f =>
          exact Or.inr ⟨.generatingQuestions, causeOf f, by simp [h0, hs, h1, h2]⟩
        | ok questionsRaw =>
          exact Or.inl ⟨{ summary := summary, facts := parseFacts factsRaw,
                          questions := parseQuestions questionsRaw },
            by simp [h0, hs, h1, h2], hs⟩

/-- Witness for C1 at the concrete sample document and configured provider. -/
theorem process_all_or_nothing_witness :
    jsTrim sampleText ≠ [] ∧ isConfigured gTest "groq" = true ∧
    ((∃ r, (process gTest sampleText "groq").1 = .ok r ∧ jsTrim r.summary ≠ []) ∨
     (∃ stage cause,
       (process gTest sampleText "groq").1 = .error (.failed stage cause))) :=
  ⟨by decide, by decide,
   process_all_or_nothing gTest sampleText "groq" (by decide) (by decide)⟩

/-- C4: when the fact-extraction stage's output yields zero parseable facts,
`process` still completes with `facts = []` (an empty list, not an error)
while the summary stays non-blank; malformed fact output is never escalated
to a pipeline failure. -/
theorem zero_parseable_facts_not_error (g : Gateway) (text : List Char) (p : String)
    (ht : jsTrim text ≠ []) (hp : isConfigured g p = true)
    (s0 : List Char) (h0 : g.oracle 0 = .ok s0) (hs0 : jsTrim s0 ≠ [])
    (f1 : List Char) (h1 : g.oracle 1 = .ok f1) (hf1 : parseFacts f1 = [])
    (q2 : List Char) (h2 : g.oracle 2 = .ok q2) :
    (process g text p).1 =
      .ok { summary := s0, facts := [], questions := parseQuestions q2 } ∧
    jsTrim s0 ≠ [] := by
  have hi0 : invoke g p 0 = (.ok s0, 1) := by simp [invoke, hp, h0]
  have hi1 : invoke g p 1 = (.ok f1, 2) := by simp [invoke, hp, h1]
  have hi2 : invoke g p 2 = (.ok q2, 3) := by simp [invoke, hp, h2]
  refine ⟨?_, hs0⟩
  simp [process, ht, hi0, hs0, hi1, hi2, hf1]

/-- Witness for C4 on a gateway whose fact stage returns only blank lines. -/
theorem zero_parseable_facts_not_error_witness :
    parseFacts ("\n  \n".toList) = [] ∧
    (process gZeroFacts sampleText "groq").1 =
      .ok { summary := "A short summary.".toList, facts := [],
            questions := parseQuestions ("analytical: Why do cats purr?".toList) } :=
  ⟨by decide,
   (zero_parseable_facts_not_error gZeroFacts sampleText "groq" (by decide) (by decide)
      ("A short summary.".toList) rfl (by decide)
      ("\n  \n".toList) rfl (by decide)
      ("analytical: Why do cats purr?".toList) rfl).1⟩

end DocIntel
